import Mathlib

/-!
Shallow embedding of `autologin/spiders.py`: the form-discovery spider
(`FormSpider`), the login spider (`LoginSpider`), and the helper functions
`login_params`, `get_login_form`, `relative_url`, `cookie_dicts` and
`_cookie_tuples`, together with the fragments of the Python standard
library and of lxml that those functions call (`str.lower`, substring
tests, `urlsplit`/`urlunsplit`/`urljoin`/`urlencode`, form field access).
-/

/-! ### Characters and strings

Models of the Python string primitives used by the spiders: `str.lower`
(ASCII case folding, which is all the fixed keyword patterns need),
the `in` substring test, and splitting at the first occurrence of a
separator (as `str.split(sep, 1)` does). -/

/-- Models ASCII lower-casing of one character, as `str.lower` does on
ASCII input. -/
def lowerChar (c : Char) : Char :=
  if 'A' ≤ c && c ≤ 'Z' then Char.ofNat (c.toNat + 32) else c

/-- Models `str.lower` for ASCII strings. -/
def lowerStr (s : String) : String :=
  String.mk (s.data.map lowerChar)

/-- True when, with `lStarts needle hay`, `needle` is a prefix of `hay`. -/
def lStarts : List Char → List Char → Bool
  | [], _ => true
  | _ :: _, [] => false
  | a :: as, b :: bs => a == b && lStarts as bs

/-- True when, in `lContains needle hay`, `needle` occurs contiguously in
`hay`; models Python's `needle in hay` on strings. -/
def lContains : List Char → List Char → Bool
  | n, [] => lStarts n []
  | n, c :: rest => lStarts n (c :: rest) || lContains n rest

/-- Models Python's `needle in hay` substring test. -/
def strContains (hay needle : String) : Bool :=
  lContains needle.data hay.data

/-- Splits, in `splitFirstL sep s`, the list `s` at the first occurrence of `sep`:
it returns the part before it and, when `sep` occurs, the part after it. -/
def splitFirstL (sep : List Char) : List Char → List Char × Option (List Char)
  | [] => ([], none)
  | c :: rest =>
    if lStarts sep (c :: rest) then ([], some ((c :: rest).drop sep.length))
    else
      match splitFirstL sep rest with
      | (a, b) => (c :: a, b)

/-- String wrapper of `splitFirstL`. -/
def splitFirstS (sep s : String) : String × Option String :=
  match splitFirstL sep.data s.data with
  | (a, b) => (String.mk a, b.map String.mk)

/-! ### URLs

Models of `urlsplit`, `urlunsplit` and `urljoin` from
`six.moves.urllib.parse`, restricted to the absolute `http(s)` URLs the
spiders handle: the fragment is everything after the first `#`, the query
everything after the first `?` before the fragment, the scheme the part
before `://`, the netloc the part up to the next `/`. -/

/-- Models `urlsplit(url)`: `(scheme, netloc, path, query, fragment)`. -/
def urlsplit (url : String) : String × String × String × String × String :=
  match splitFirstS "#" url with
  | (rest0, frag) =>
    match splitFirstS "?" rest0 with
    | (rest1, q) =>
      match splitFirstS "://" rest1 with
      | (scheme, some rest2) =>
        match splitFirstS "/" rest2 with
        | (netloc, p) =>
          (scheme, netloc,
           (match p with | none => "" | some pp => "/" ++ pp),
           q.getD "", frag.getD "")
      | (_, none) => ("", "", rest1, q.getD "", frag.getD "")

/-- Embeds `relative_url` (spiders.py): `urlunsplit(('', '') + urlsplit(url)[2:])`,
i.e. the path, query and fragment of the URL with `?` and `#` markers
re-inserted when those components are present. -/
def relative_url (url : String) : String :=
  match urlsplit url with
  | (_, _, path, query, fragment) =>
    path ++ (if query = "" then "" else "?" ++ query)
         ++ (if fragment = "" then "" else "#" ++ fragment)

/-- Models `urljoin(base, url)` for the cases arising here: an absolute
URL is kept, a netloc-relative or path-absolute or path-relative URL is
resolved against `base`. -/
def urljoin (base url : String) : String :=
  if url = "" then base
  else if (splitFirstS "://" url).2.isSome then url
  else
    match urlsplit base with
    | (scheme, netloc, path, _, _) =>
      if lStarts ['/', '/'] url.data then scheme ++ ":" ++ url
      else if lStarts ['/'] url.data then scheme ++ "://" ++ netloc ++ url
      else
        let dir := String.mk ((path.data.reverse.dropWhile (fun c => !(c == '/'))).reverse)
        scheme ++ "://" ++ netloc ++ (if dir = "" then "/" else dir) ++ url

/-! ### urlencode

Model of `urlencode` / `quote_plus`: alphanumerics and `-_.~` are kept,
space becomes `+`, every other character is percent-encoded from its
UTF-8 bytes, and pairs are joined `name=value` with `&`. -/

/-- Upper-case hexadecimal digits. -/
def hexDigits : List Char :=
  ['0', '1', '2', '3', '4', '5', '6', '7', '8', '9', 'A', 'B', 'C', 'D', 'E', 'F']

/-- Two-digit upper-case hex rendering of a byte. -/
def hexOfByte (b : Nat) : String :=
  String.mk [hexDigits.getD (b / 16 % 16) '0', hexDigits.getD (b % 16) '0']

/-- Models `quote_plus` on one character. -/
def quoteChar (c : Char) : String :=
  if c.isAlphanum || c = '-' || c = '_' || c = '.' || c = '~' then String.singleton c
  else if c = ' ' then "+"
  else String.join (((String.singleton c).toUTF8.toList).map (fun b => "%" ++ hexOfByte b.toNat))

/-- Models `quote_plus`. -/
def quote_plus (s : String) : String :=
  String.join (s.data.map quoteChar)

/-- Models `urlencode(pairs)`. -/
def urlencode (pairs : List (String × String)) : String :=
  String.intercalate "&" (pairs.map (fun p => quote_plus p.1 ++ "=" ++ quote_plus p.2))

/-! ### FormSpider: link priorities and the discovery flags -/

/-- Embeds `FormSpider.priority_patterns`. -/
def priority_patterns : List String :=
  ["login", "log in", "logon", "signin", "sign in", "sign-in",
   "signup", "sign up", "sign-up", "register", "registration", "account", "join"]

/-- Embeds the text the priority test runs over:
`' '.join([relative_url(link.url), link.text]).lower()`. -/
def link_text (url text : String) : String :=
  lowerStr (String.intercalate " " [relative_url url, text])

/-- Embeds the priority computation in `FormSpider.parse`: 100 when any
fixed pattern occurs in the lowered link text joined with the link's
relative URL, else 0. -/
def link_priority (url text : String) : Nat :=
  if priority_patterns.any (fun p => strContains (link_text url text) p) then 100 else 0

/-- Follows the claim's words, for comparison with `link_priority`: the
text scanned for keyword patterns is the link text together with only the
*path component* of the link's URL (no query, no fragment). -/
def claim_priority (url text : String) : Nat :=
  let path := (urlsplit url).2.2.1
  if priority_patterns.any (fun p => strContains (lowerStr (path ++ " " ++ text)) p) then 100 else 0

/-- The two discovery flags of `FormSpider` (`found_login`,
`found_registration`), both initialised to `False` in `__init__`. -/
structure FormSpiderState where
  found_login : Bool
  found_registration : Bool
deriving DecidableEq, Repr

/-- Embeds `FormSpider.__init__`: both flags start false. -/
def initial_state : FormSpiderState :=
  { found_login := false, found_registration := false }

/-- Embeds the body of the form loop in `FormSpider.parse` for one
extracted form type. -/
def classifyStep (s : FormSpiderState) (form_type : String) : FormSpiderState :=
  if form_type == "login" && !s.found_login then { s with found_login := true }
  else if form_type == "registration" && !s.found_registration then
    { s with found_registration := true }
  else s

/-- Embeds the form loop of `FormSpider.parse` over the page's extracted
form types. -/
def processForms (s : FormSpiderState) (forms : List String) : FormSpiderState :=
  forms.foldl classifyStep s

/-- Embeds `FormSpider.parse` on one fetched page: run the form loop,
then raise `CloseSpider('done')` when both flags hold (no links are
yielded), else yield one request per extracted link with its computed
priority. A link is its URL paired with its text; the result is the new
state, whether the spider was closed, and the yielded `(url, priority)`
requests. -/
def FormSpider_parse (s : FormSpiderState) (forms : List String)
    (links : List (String × String)) :
    FormSpiderState × Bool × List (String × Nat) :=
  let s2 := processForms s forms
  if s2.found_registration && s2.found_login then (s2, true, [])
  else (s2, false, links.map (fun l => (l.1, link_priority l.1 l.2)))

/-! ### Cookies and the login verdict -/

/-- A cookie record as stored in a `http.cookielib` jar: the five
identity attributes used by `_cookie_tuples` plus further carried
attributes (`secure`, `expires`) that `_cookie_tuples` drops. -/
structure CookieRec where
  name : String
  value : String
  domain : String
  path : String
  port : Option String
  secure : Bool
  expires : Option Nat
deriving DecidableEq, Repr

/-- Embeds the tuple built by `_cookie_tuples` for one cookie:
`(c['name'], c['value'], c['domain'], c['path'], c['port'])`. -/
def cookieTuple (c : CookieRec) : String × String × String × String × Option String :=
  (c.name, c.value, c.domain, c.path, c.port)

/-- Embeds `_cookie_tuples` (spiders.py). -/
def cookieTuples (cs : List CookieRec) : List (String × String × String × String × Option String) :=
  cs.map cookieTuple

/-- Embeds `cookie_dicts` (spiders.py): `None` for a missing jar, else
the list of the cookies' attribute dicts. A cookie record is identified
with its attribute dict here, since the dict carries exactly the record's
attributes. -/
def cookie_dicts : Option (List CookieRec) → Option (List CookieRec)
  | none => none
  | some jar => some jar

/-- Embeds `cookie_dicts(_response_cookies(response)) or []` from
`LoginSpider.parse`: the initial cookie set attached to the submission
request, the empty list when the response exposes no jar. -/
def initialCookies (jar : Option (List CookieRec)) : List CookieRec :=
  (cookie_dicts jar).getD []

/-- The item a `LoginSpider` callback returns: `{'ok': False, 'error': e}`
or `{'ok': True, 'cookies': cs, 'start_url': u}`. -/
inductive LoginResult where
  | failure (error : String)
  | success (cookies : List CookieRec) (start_url : String)
deriving DecidableEq, Repr

/-- The `ok` field of the returned item. -/
def LoginResult.isOk : LoginResult → Bool
  | .failure _ => false
  | .success _ _ => true

/-- Embeds `LoginSpider.parse_login`: take the response's jar (empty when
absent), compare the cookie identity-tuple sets, and fail with `badauth`
when the new set is contained in the initial one (`new_cookies <= old_cookies`),
else succeed with the response's cookies and URL. -/
def parse_login (initial_cookies : List CookieRec)
    (response_jar : Option (List CookieRec)) (response_url : String) : LoginResult :=
  let cookies := response_jar.getD []
  let old_cookies := cookieTuples initial_cookies
  let new_cookies := cookieTuples ((cookie_dicts (some cookies)).getD [])
  if new_cookies.all (fun t => decide (t ∈ old_cookies)) then .failure "badauth"
  else .success cookies response_url

/-! ### Forms and `login_params`

The lxml form object is modelled by its action, its method and its
ordered list of controls.  A control carries its name, its current value,
the set of values it accepts (`none` for a free-text control; a checkbox
or radio group only accepts its option values and raises `ValueError`
otherwise), and whether it is a submit control (submit controls are
excluded from `form.form_values()`).  The formasaurus field annotation
`meta['fields']` is the ordered list of `(field_name, field_type)` pairs. -/

/-- One form control of the lxml form object. -/
structure FormControl where
  name : String
  value : String
  allowed : Option (List String)
  isSubmitControl : Bool
deriving DecidableEq, Repr

/-- The lxml form object. -/
structure Form where
  action : String
  method : String
  controls : List FormControl
deriving DecidableEq, Repr

/-- The exceptions field access can raise: `ValueError` for a rejected
value, `KeyError` for a missing field name. -/
inductive FieldError where
  | valueError
  | keyError
deriving DecidableEq, Repr

/-- Models the assignment `form.fields[n] = v`: sets the first control
named `n` to `v`; raises `ValueError` when the control rejects the value
and `KeyError` when no control has that name. -/
def setControls : List FormControl → String → String → Except FieldError (List FormControl)
  | [], _, _ => .error .keyError
  | c :: cs, n, v =>
    if c.name = n then
      match c.allowed with
      | none => .ok ({ c with value := v } :: cs)
      | some vs => if vs.contains v then .ok ({ c with value := v } :: cs)
                   else .error .valueError
    else
      match setControls cs n v with
      | .ok cs2 => .ok (c :: cs2)
      | .error e => .error e

/-- Models the lookup `form.fields[n]`: the value of the first control
named `n`, `KeyError` when absent. -/
def getControl : List FormControl → String → Except FieldError String
  | [], _ => .error .keyError
  | c :: cs, n => if c.name = n then .ok c.value else getControl cs n

/-- Models `form.form_values()`: the `(name, value)` pairs of the
non-submit controls, in declaration order. -/
def Form.form_values (f : Form) : List (String × String) :=
  (f.controls.filter (fun c => !c.isSubmitControl)).map (fun c => (c.name, c.value))

/-- One field assignment performed by `login_params`: the target field
name, the value written, and whether a `ValueError` is swallowed
(`try ... except ValueError: pass`, used only for the checkbox step). -/
structure Op where
  name : String
  value : String
  swallow : Bool
deriving DecidableEq, Repr

/-- Runs one assignment on the form, swallowing `ValueError` exactly when
the op says so. -/
def applyOp (f : Form) (o : Op) : Except FieldError Form :=
  match setControls f.controls o.name o.value with
  | .ok cs => .ok { f with controls := cs }
  | .error .valueError => if o.swallow then .ok f else .error .valueError
  | .error .keyError => .error .keyError

/-- Runs a sequence of assignments, stopping at the first unswallowed
exception. -/
def applyOps (f : Form) : List Op → Except FieldError Form
  | [] => .ok f
  | o :: os =>
    match applyOp f o with
    | .ok f2 => applyOps f2 os
    | .error e => .error e

/-- Embeds `USERNAME_FIELD_TYPES` (spiders.py). -/
def USERNAME_FIELD_TYPES : List String := ["username", "email", "username or email"]

/-- Embeds `CHECK_CHECKBOXES` (spiders.py). -/
def CHECK_CHECKBOXES : List String := ["remember me checkbox"]

/-- Embeds `PASSWORD_FIELD_TYPES` (spiders.py). -/
def PASSWORD_FIELD_TYPES : List String := ["password"]

/-- Embeds `SUBMIT_TYPES` (spiders.py). -/
def SUBMIT_TYPES : List String := ["submit button"]

/-- Embeds `DEFAULT_POST_HEADERS` (spiders.py). -/
def DEFAULT_POST_HEADERS : List (String × String) :=
  [("Content-Type", "application/x-www-form-urlencoded")]

/-- Embeds the field scan of `login_params`: the loop
`for field_name, field_type in fields:` that assigns `username_field`
on every username-typed field and `password_field` on every
password-typed field, so each later match overwrites the earlier one. -/
def scanFields : List (String × String) → Option String × Option String →
    Option String × Option String
  | [], acc => acc
  | fd :: rest, acc =>
    scanFields rest
      (if USERNAME_FIELD_TYPES.contains fd.2 then (some fd.1, acc.2)
       else if PASSWORD_FIELD_TYPES.contains fd.2 then (acc.1, some fd.1)
       else acc)

/-- The checkbox assignments of `login_params`: for every field typed as
a check-me checkbox, write `'on'`, swallowing `ValueError`. -/
def checkboxOps (fields : List (String × String)) : List Op :=
  (fields.filter (fun fd => CHECK_CHECKBOXES.contains fd.2)).map
    (fun fd => { name := fd.1, value := "on", swallow := true })

/-- The pairs `login_params` appends after `form.form_values()`: one
`(field_name, form.fields[field_name])` pair per submit-typed field, in
declaration order; the lookup may raise `KeyError`. -/
def submitPairs (f : Form) : List (String × String) →
    Except FieldError (List (String × String))
  | [] => .ok []
  | fd :: rest =>
    if SUBMIT_TYPES.contains fd.2 then
      match getControl f.controls fd.1 with
      | .error e => .error e
      | .ok v =>
        match submitPairs f rest with
        | .error e => .error e
        | .ok sp => .ok ((fd.1, v) :: sp)
    else submitPairs f rest

/-- The dict `login_params` returns on success. -/
structure SubmissionRequest where
  url : String
  method : String
  headers : List (String × String)
  body : String
deriving DecidableEq, Repr

/-- The tail of `login_params` after the field assignments: compute
`form.form_values()`, append the submit-typed pairs, and build the
returned dict (`form.action` resolved against the page URL, the method,
the POST headers exactly for a POST form, the url-encoded body). -/
def finishSubmission (url : Option String) (fields : List (String × String))
    (f2 : Form) : Except FieldError (Form × Option SubmissionRequest) :=
  match submitPairs f2 fields with
  | .error e => .error e
  | .ok sp =>
    .ok (f2, some
      { url := (match url with | none => f2.action | some u => urljoin u f2.action),
        method := f2.method,
        headers := if f2.method = "POST" then DEFAULT_POST_HEADERS else [],
        body := urlencode (f2.form_values ++ sp) })

/-- The mutation phase of `login_params` once both fields were found:
run the checkbox assignments (swallowing `ValueError`), then write the
username and the password (propagating exceptions), then finish. -/
def buildSubmission (url : Option String) (username password : String)
    (form : Form) (fields : List (String × String))
    (username_field password_field : String) :
    Except FieldError (Form × Option SubmissionRequest) :=
  match applyOps form
      (checkboxOps fields ++
        [{ name := username_field, value := username, swallow := false },
         { name := password_field, value := password, swallow := false }]) with
  | .error e => .error e
  | .ok f2 => finishSubmission url fields f2

/-- Embeds `login_params` (spiders.py).  The threaded form state is
returned next to the result: `(form, none)` embeds the bare `return`
taken when the username or password field is missing (the form is left
untouched), `(form', some request)` the returned submit dict, and
`.error e` an exception escaping the function (an unswallowed
`ValueError` from the username/password assignment, or a `KeyError`). -/
def login_params (url : Option String) (username password : String)
    (form : Form) (fields : List (String × String)) :
    Except FieldError (Form × Option SubmissionRequest) :=
  match scanFields fields (none, none) with
  | (some username_field, some password_field) =>
    buildSubmission url username password form fields username_field password_field
  | _ => .ok (form, none)

/-! ### `LoginSpider.parse` -/

/-- One entry of the sequence `formasaurus.extract_forms` yields: the
form object and its annotation (form type and ordered fields). -/
structure ExtractedForm where
  form : Form
  ftype : String
  fields : List (String × String)
deriving DecidableEq, Repr

/-- Embeds `get_login_form` (spiders.py): the first extracted form whose
annotation type is `login`, `None` when there is none. -/
def get_login_form (forms : List ExtractedForm) : Option ExtractedForm :=
  forms.find? (fun ef => ef.ftype == "login")

/-- An exception escaping `LoginSpider.parse`: the `TypeError` raised by
`params['url']` when `login_params` returned `None`, or an exception
propagating out of `login_params` itself. -/
inductive PyError where
  | typeError
  | fieldRaised (e : FieldError)
deriving DecidableEq, Repr

/-- What one call of `LoginSpider.parse` produces. -/
inductive ParseOutcome where
  | item (r : LoginResult)
  | request (params : SubmissionRequest) (initial_cookies : List CookieRec)
  | raised (e : PyError)
deriving DecidableEq, Repr

/-- Embeds `LoginSpider.parse`: no login form gives the `nologinform`
item; otherwise `login_params` runs and its dict drives the follow-up
request carrying the initial cookies.  The source subscripts
`params['url']` without checking `params` for `None`, so a form with no
username/password field makes the callback raise `TypeError`. -/
def LoginSpider_parse (forms : List ExtractedForm) (username password : String)
    (base_url : Option String) (jar : Option (List CookieRec)) : ParseOutcome :=
  match get_login_form forms with
  | none => .item (.failure "nologinform")
  | some ef =>
    match login_params base_url username password ef.form ef.fields with
    | .error e => .raised (.fieldRaised e)
    | .ok (_, none) => .raised .typeError
    | .ok (_, some params) => .request params (initialCookies jar)

/-! ### Shape/value decomposition of the control list

For the purity analysis of `login_params` the control list is split into
its *shape* (names, accepted-value sets, submit flags — never changed by
assignments) and its *values*.  Assignments are replayed on the value
list with the shape as a fixed parameter. -/

/-- The assignment-invariant part of a control: name, accepted values,
submit flag. -/
def shape (cs : List FormControl) : List (String × Option (List String) × Bool) :=
  cs.map (fun c => (c.name, c.allowed, c.isSubmitControl))

/-- The current values of the controls. -/
def vals (cs : List FormControl) : List String :=
  cs.map (fun c => c.value)

/-- Reassembles a control list from a shape and a value list. -/
def rebuild : List (String × Option (List String) × Bool) → List String → List FormControl
  | t :: sh, x :: xs => { name := t.1, value := x, allowed := t.2.1, isSubmitControl := t.2.2 } :: rebuild sh xs
  | _, _ => []

/-- Whether a control of the given shape accepts the value `v`. -/
def shAccepts (t : String × Option (List String) × Bool) (v : String) : Bool :=
  match t.2.1 with
  | none => true
  | some vs => vs.contains v

/-- The function `setControls` replayed on the value list with the shape fixed. -/
def setControlsS : List (String × Option (List String) × Bool) → List String →
    String → String → Except FieldError (List String)
  | [], _, _, _ => .error .keyError
  | _ :: _, [], _, _ => .error .keyError
  | t :: sh, x :: xs, n, v =>
    if t.1 = n then
      (if shAccepts t v then .ok (v :: xs) else .error .valueError)
    else
      match setControlsS sh xs n v with
      | .ok ys => .ok (x :: ys)
      | .error e => .error e

/-- The function `applyOp` replayed on the value list. -/
def applyOpS (sh : List (String × Option (List String) × Bool)) (xs : List String)
    (o : Op) : Except FieldError (List String) :=
  match setControlsS sh xs o.name o.value with
  | .ok ys => .ok ys
  | .error .valueError => if o.swallow then .ok xs else .error .valueError
  | .error .keyError => .error .keyError

/-- The function `applyOps` replayed on the value list. -/
def applyOpsS (sh : List (String × Option (List String) × Bool)) :
    List String → List Op → Except FieldError (List String)
  | xs, [] => .ok xs
  | xs, o :: os =>
    match applyOpS sh xs o with
    | .ok ys => applyOpsS sh ys os
    | .error e => .error e

/-- Index of the first control with the given name, by shape. -/
def wIdx : List (String × Option (List String) × Bool) → String → Option Nat
  | [], _ => none
  | t :: sh, n => if t.1 = n then some 0 else (wIdx sh n).map (· + 1)

/-- Whether the control at index `j` accepts `v`, by shape. -/
def shAcceptsAt : List (String × Option (List String) × Bool) → Nat → String → Bool
  | [], _, _ => false
  | t :: _, 0, v => shAccepts t v
  | _ :: sh, j + 1, v => shAcceptsAt sh j v

/-- The index an op writes, if it writes at all: the first control with
the op's name, provided that control accepts the op's value. -/
def opWr (sh : List (String × Option (List String) × Bool)) (o : Op) : Option Nat :=
  match wIdx sh o.name with
  | none => none
  | some j => if shAcceptsAt sh j o.value then some j else none

/-- An index some op of the list writes. -/
def targetedS (sh : List (String × Option (List String) × Bool)) (ops : List Op)
    (i : Nat) : Prop :=
  ∃ o ∈ ops, opWr sh o = some i

/-! ### Reference selectors and concrete instances -/

/-- Follows the claim's words, for comparison with `scanFields`: the
*first* field whose type is in the given set. -/
def firstFieldOfTypes (types : List String) (fields : List (String × String)) :
    Option String :=
  (fields.find? (fun fd => types.contains fd.2)).map (fun fd => fd.1)

/-- The *last* field whose type is in the given set: what the source's
scan loop actually keeps. -/
def lastFieldOfTypes (types : List String) (fields : List (String × String)) :
    Option String :=
  (fields.reverse.find? (fun fd => types.contains fd.2)).map (fun fd => fd.1)

/-- A concrete cookie. -/
def cw1 : CookieRec :=
  { name := "sid", value := "abc", domain := "x.com", path := "/",
    port := some "443", secure := false, expires := none }

/-- Cookie `cw1` with only the value changed. -/
def cw2 : CookieRec :=
  { name := "sid", value := "def", domain := "x.com", path := "/",
    port := some "443", secure := false, expires := none }

/-- Field annotation with two username-typed and two password-typed fields. -/
def c2Fields : List (String × String) :=
  [("user1", "username"), ("user2", "email"), ("pass1", "password"), ("pass2", "password")]

/-- Form matching `c2Fields`, all controls free-text. -/
def c2Form : Form :=
  { action := "/l", method := "GET",
    controls := [{ name := "user1", value := "a", allowed := none, isSubmitControl := false },
                 { name := "user2", value := "b", allowed := none, isSubmitControl := false },
                 { name := "pass1", value := "c", allowed := none, isSubmitControl := false },
                 { name := "pass2", value := "d", allowed := none, isSubmitControl := false }] }

/-- A minimal valid login form. -/
def c3Form : Form :=
  { action := "/l", method := "GET",
    controls := [{ name := "user", value := "", allowed := none, isSubmitControl := false },
                 { name := "pass", value := "", allowed := none, isSubmitControl := false }] }

/-- Field annotation for `c3Form`. -/
def c3Fields : List (String × String) := [("user", "username"), ("pass", "password")]

/-- Form `c3Form` after `login_params` wrote the credentials. -/
def c3F2 : Form :=
  { action := "/l", method := "GET",
    controls := [{ name := "user", value := "alice", allowed := none, isSubmitControl := false },
                 { name := "pass", value := "secret", allowed := none, isSubmitControl := false }] }

/-- The submit dict built from `c3Form`. -/
def c3Req : SubmissionRequest :=
  { url := "/l", method := "GET", headers := [], body := "user=alice&pass=secret" }

/-- Scenario B form: a username-typed field and a checkbox, no password
field. -/
def c5Form : Form :=
  { action := "/login", method := "POST",
    controls := [{ name := "email", value := "", allowed := none, isSubmitControl := false },
                 { name := "remember", value := "", allowed := some ["on"], isSubmitControl := false }] }

/-- Field annotation of the Scenario B form. -/
def c5Fields : List (String × String) :=
  [("email", "username or email"), ("remember", "remember me checkbox")]

/-- The Scenario B page's only extracted form, classified as a login form. -/
def c5Ef : ExtractedForm := { form := c5Form, ftype := "login", fields := c5Fields }

/-- A POST login form with a submit button. -/
def c6wForm : Form :=
  { action := "/login", method := "POST",
    controls := [{ name := "user", value := "", allowed := none, isSubmitControl := false },
                 { name := "pass", value := "", allowed := none, isSubmitControl := false },
                 { name := "go", value := "Login", allowed := none, isSubmitControl := true }] }

/-- Field annotation for `c6wForm`. -/
def c6wFields : List (String × String) :=
  [("user", "username"), ("pass", "password"), ("go", "submit button")]

/-- Form `c6wForm` after the credentials were written. -/
def c6wF2 : Form :=
  { action := "/login", method := "POST",
    controls := [{ name := "user", value := "bob", allowed := none, isSubmitControl := false },
                 { name := "pass", value := "pw", allowed := none, isSubmitControl := false },
                 { name := "go", value := "Login", allowed := none, isSubmitControl := true }] }

/-- The submit dict built from `c6wForm`. -/
def c6wReq : SubmissionRequest :=
  { url := "http://x.com/login", method := "POST", headers := DEFAULT_POST_HEADERS,
    body := "user=bob&pass=pw&go=Login" }

/-- A login form whose checkbox control rejects the value `on`. -/
def c9FormA : Form :=
  { action := "/a", method := "POST",
    controls := [{ name := "user", value := "", allowed := none, isSubmitControl := false },
                 { name := "pass", value := "", allowed := none, isSubmitControl := false },
                 { name := "rem", value := "no", allowed := some ["yes"], isSubmitControl := false }] }

/-- Field annotation for `c9FormA`: username, password and a checkbox. -/
def c9FieldsA : List (String × String) :=
  [("user", "username"), ("pass", "password"), ("rem", "remember me checkbox")]

/-- Form `c9FormA` after `login_params`: credentials written, the rejected
checkbox assignment swallowed, its value untouched. -/
def c9F2A : Form :=
  { action := "/a", method := "POST",
    controls := [{ name := "user", value := "u", allowed := none, isSubmitControl := false },
                 { name := "pass", value := "p", allowed := none, isSubmitControl := false },
                 { name := "rem", value := "no", allowed := some ["yes"], isSubmitControl := false }] }

/-- The submit dict built from `c9FormA`. -/
def c9ReqA : SubmissionRequest :=
  { url := "/a", method := "POST", headers := DEFAULT_POST_HEADERS,
    body := "user=u&pass=p&rem=no" }

/-- A login form whose *username* control rejects the credential value. -/
def c9FormB : Form :=
  { action := "/a", method := "GET",
    controls := [{ name := "user", value := "", allowed := some ["admin"], isSubmitControl := false },
                 { name := "pass", value := "", allowed := none, isSubmitControl := false }] }

/-- Field annotation for `c9FormB`. -/
def c9FieldsB : List (String × String) := [("user", "username"), ("pass", "password")]

/-! ### Lemmas: shape/value decomposition -/

theorem rebuild_shape_vals : ∀ cs : List FormControl, rebuild (shape cs) (vals cs) = cs
  | [] => rfl
  | c :: cs => by
    show { name := c.name, value := c.value, allowed := c.allowed,
           isSubmitControl := c.isSubmitControl } :: rebuild (shape cs) (vals cs) = c :: cs
    rw [rebuild_shape_vals cs]

theorem shape_rebuild : ∀ (sh : List (String × Option (List String) × Bool)) (xs : List String),
    xs.length = sh.length → shape (rebuild sh xs) = sh
  | [], [], _ => rfl
  | [], _ :: _, h => by simp at h
  | _ :: _, [], h => by simp at h
  | t :: sh, x :: xs, h => by
    have ih := shape_rebuild sh xs (by simpa using h)
    simp only [rebuild, shape, List.map_cons] at ih ⊢
    rw [ih]

theorem vals_rebuild : ∀ (sh : List (String × Option (List String) × Bool)) (xs : List String),
    xs.length = sh.length → vals (rebuild sh xs) = xs
  | [], [], _ => rfl
  | [], _ :: _, h => by simp at h
  | _ :: _, [], h => by simp at h
  | t :: sh, x :: xs, h => by
    have ih := vals_rebuild sh xs (by simpa using h)
    simp only [rebuild, vals, List.map_cons] at ih ⊢
    rw [ih]

theorem setControlsS_length : ∀ (sh : List (String × Option (List String) × Bool))
    (xs : List String) (n v : String) (ys : List String),
    setControlsS sh xs n v = .ok ys → ys.length = xs.length
  | [], xs, n, v, ys, h => by simp [setControlsS] at h
  | t :: sh, [], n, v, ys, h => by simp [setControlsS] at h
  | t :: sh, x :: xs, n, v, ys, h => by
    by_cases ht : t.1 = n
    · by_cases ha : shAccepts t v
      · simp [setControlsS, ht, ha] at h
        simp [← h]
      · simp [setControlsS, ht, ha] at h
    · simp only [setControlsS, if_neg ht] at h
      cases hrec : setControlsS sh xs n v with
      | ok ys2 =>
        rw [hrec] at h
        simp at h
        rw [← h]
        simp [setControlsS_length sh xs n v ys2 hrec]
      | error e => rw [hrec] at h; simp at h

theorem setControlsS_char : ∀ (sh : List (String × Option (List String) × Bool))
    (xs : List String), xs.length = sh.length → ∀ (n v : String),
    setControlsS sh xs n v =
      (match wIdx sh n with
       | none => .error .keyError
       | some j => if shAcceptsAt sh j v then .ok (xs.set j v) else .error .valueError)
  | [], [], _, n, v => rfl
  | [], _ :: _, h, _, _ => by simp at h
  | _ :: _, [], h, _, _ => by simp at h
  | t :: sh, x :: xs, h, n, v => by
    have hl : xs.length = sh.length := by simpa using h
    by_cases ht : t.1 = n
    · simp [setControlsS, wIdx, ht, shAcceptsAt]
    · have ih := setControlsS_char sh xs hl n v
      simp only [setControlsS, wIdx, if_neg ht]
      rw [ih]
      cases hw : wIdx sh n with
      | none => simp
      | some j =>
        by_cases ha : shAcceptsAt sh j v <;> simp [ha, shAcceptsAt]

theorem applyOpS_char (sh : List (String × Option (List String) × Bool))
    (xs : List String) (h : xs.length = sh.length) (o : Op) :
    applyOpS sh xs o =
      (match opWr sh o with
       | some j => .ok (xs.set j o.value)
       | none =>
         match wIdx sh o.name with
         | none => .error .keyError
         | some _ => if o.swallow then .ok xs else .error .valueError) := by
  unfold applyOpS opWr
  rw [setControlsS_char sh xs h]
  cases hw : wIdx sh o.name with
  | none => simp
  | some j => by_cases ha : shAcceptsAt sh j o.value <;> simp [ha]

theorem applyOpS_length (sh : List (String × Option (List String) × Bool))
    (xs ys : List String) (o : Op) (h : applyOpS sh xs o = .ok ys) :
    ys.length = xs.length := by
  unfold applyOpS at h
  cases hs : setControlsS sh xs o.name o.value with
  | ok zs =>
    rw [hs] at h
    simp at h
    rw [← h]
    exact setControlsS_length _ _ _ _ _ hs
  | error e =>
    rw [hs] at h
    cases e with
    | valueError =>
      by_cases hsw : o.swallow
      · simp [hsw] at h; rw [← h]
      · simp [hsw] at h
    | keyError => simp at h

theorem applyOpsS_length : ∀ (ops : List Op) (sh : List (String × Option (List String) × Bool))
    (xs ys : List String), applyOpsS sh xs ops = .ok ys → ys.length = xs.length
  | [], sh, xs, ys, h => by simp [applyOpsS] at h; rw [← h]
  | o :: os, sh, xs, ys, h => by
    simp only [applyOpsS] at h
    cases ha : applyOpS sh xs o with
    | ok zs =>
      rw [ha] at h
      exact (applyOpsS_length os sh zs ys h).trans (applyOpS_length sh xs zs o ha)
    | error e => rw [ha] at h; simp at h

theorem applyOpsS_untargeted : ∀ (ops : List Op) (sh : List (String × Option (List String) × Bool))
    (xs ys : List String), xs.length = sh.length → applyOpsS sh xs ops = .ok ys →
    ∀ i, ¬ targetedS sh ops i → ys[i]? = xs[i]?
  | [], sh, xs, ys, _, h, i, _ => by
    simp [applyOpsS] at h
    rw [h]
  | o :: os, sh, xs, ys, hl, h, i, hnt => by
    simp only [applyOpsS] at h
    rw [applyOpS_char sh xs hl o] at h
    cases hw : opWr sh o with
    | some j =>
      rw [hw] at h
      have hij : i ≠ j := by
        intro hij
        exact hnt ⟨o, List.mem_cons_self o os, by rw [hw, hij]⟩
      have hnt2 : ¬ targetedS sh os i := by
        rintro ⟨o2, ho2, hw2⟩
        exact hnt ⟨o2, List.mem_cons_of_mem o ho2, hw2⟩
      have hrec := applyOpsS_untargeted os sh (xs.set j o.value) ys
        (by rw [List.length_set]; exact hl) h i hnt2
      rw [hrec, List.getElem?_set_ne (Ne.symm hij)]
    | none =>
      rw [hw] at h
      cases hwi : wIdx sh o.name with
      | none => rw [hwi] at h; simp at h
      | some j =>
        rw [hwi] at h
        by_cases hsw : o.swallow
        · rw [if_pos hsw] at h
          refine applyOpsS_untargeted os sh xs ys hl h i ?_
          rintro ⟨o2, ho2, hw2⟩
          exact hnt ⟨o2, List.mem_cons_of_mem o ho2, hw2⟩
        · rw [if_neg hsw] at h; simp at h

theorem applyOpsS_congr : ∀ (ops : List Op) (sh : List (String × Option (List String) × Bool))
    (xs zs : List String), xs.length = sh.length → zs.length = sh.length →
    (∀ i, ¬ targetedS sh ops i → xs[i]? = zs[i]?) →
    applyOpsS sh xs ops = applyOpsS sh zs ops
  | [], sh, xs, zs, _, _, hagree => by
    have hxz : xs = zs := by
      refine List.ext_getElem? fun i => hagree i ?_
      rintro ⟨o, ho, _⟩
      exact List.not_mem_nil o ho
    rw [hxz]
  | o :: os, sh, xs, zs, hx, hz, hagree => by
    simp only [applyOpsS]
    rw [applyOpS_char sh xs hx o, applyOpS_char sh zs hz o]
    cases hw : opWr sh o with
    | some j =>
      simp only
      refine applyOpsS_congr os sh _ _ (by simp [hx]) (by simp [hz]) ?_
      intro i hnt
      by_cases hij : i = j
      · subst hij
        rw [List.getElem?_set, List.getElem?_set]
        have : zs.length = xs.length := by rw [hz, hx]
        simp [this]
      · rw [List.getElem?_set_ne (Ne.symm hij), List.getElem?_set_ne (Ne.symm hij)]
        refine hagree i ?_
        rintro ⟨o2, ho2, hw2⟩
        rcases List.mem_cons.mp ho2 with h1 | h2
        · subst h1
          rw [hw] at hw2
          cases hw2
          exact hij rfl
        · exact hnt ⟨o2, h2, hw2⟩
    | none =>
      cases hwi : wIdx sh o.name with
      | none => simp [hwi]
      | some j =>
        by_cases hsw : o.swallow
        · simp only [hwi, if_pos hsw]
          refine applyOpsS_congr os sh xs zs hx hz ?_
          intro i hnt
          refine hagree i ?_
          rintro ⟨o2, ho2, hw2⟩
          rcases List.mem_cons.mp ho2 with h1 | h2
          · subst h1
            rw [hw] at hw2
            cases hw2
          · exact hnt ⟨o2, h2, hw2⟩
        · simp [hwi, if_neg hsw]

theorem applyOpsS_absorb (ops : List Op) (sh : List (String × Option (List String) × Bool))
    (xs ys : List String) (hx : xs.length = sh.length)
    (h : applyOpsS sh xs ops = .ok ys) : applyOpsS sh ys ops = .ok ys := by
  have hy : ys.length = sh.length := (applyOpsS_length ops sh xs ys h).trans hx
  have hcongr : applyOpsS sh ys ops = applyOpsS sh xs ops :=
    applyOpsS_congr ops sh ys xs hy hx
      (fun i hnt => applyOpsS_untargeted ops sh xs ys hx h i hnt)
  rw [hcongr, h]

theorem shape_cons (c : FormControl) (cs : List FormControl) :
    shape (c :: cs) = (c.name, c.allowed, c.isSubmitControl) :: shape cs := rfl

theorem vals_cons (c : FormControl) (cs : List FormControl) :
    vals (c :: cs) = c.value :: vals cs := rfl

theorem setControls_eq : ∀ (cs : List FormControl) (n v : String),
    setControls cs n v = (setControlsS (shape cs) (vals cs) n v).map (rebuild (shape cs))
  | [], n, v => rfl
  | c :: cs, n, v => by
    rw [shape_cons, vals_cons]
    by_cases h : c.name = n
    · cases hal : c.allowed with
      | none =>
        simp [setControls, setControlsS, h, shAccepts, hal, Except.map,
          rebuild, rebuild_shape_vals]
      | some vs =>
        by_cases hv : v ∈ vs
        · simp [setControls, setControlsS, h, shAccepts, hal, hv, Except.map,
            rebuild, rebuild_shape_vals]
        · simp [setControls, setControlsS, h, shAccepts, hal, hv, Except.map]
    · have ih := setControls_eq cs n v
      simp only [setControls, setControlsS, if_neg h]
      rw [ih]
      cases hrec : setControlsS (shape cs) (vals cs) n v with
      | ok ys => simp [Except.map, rebuild]
      | error e => simp [Except.map]

theorem applyOp_eq (f : Form) (o : Op) :
    applyOp f o = (applyOpS (shape f.controls) (vals f.controls) o).map
      (fun xs => { f with controls := rebuild (shape f.controls) xs }) := by
  unfold applyOp applyOpS
  rw [setControls_eq f.controls o.name o.value]
  cases hs : setControlsS (shape f.controls) (vals f.controls) o.name o.value with
  | ok ys => simp [Except.map]
  | error e =>
    cases e with
    | valueError =>
      by_cases hsw : o.swallow <;>
        simp [Except.map, hsw, rebuild_shape_vals]
    | keyError => simp [Except.map]

theorem applyOps_eq : ∀ (ops : List Op) (f : Form),
    applyOps f ops = (applyOpsS (shape f.controls) (vals f.controls) ops).map
      (fun xs => { f with controls := rebuild (shape f.controls) xs })
  | [], f => by simp [applyOps, applyOpsS, Except.map, rebuild_shape_vals]
  | o :: os, f => by
    simp only [applyOps, applyOpsS]
    rw [applyOp_eq f o]
    cases ha : applyOpS (shape f.controls) (vals f.controls) o with
    | error e => simp [Except.map]
    | ok ys =>
      simp only [Except.map]
      have hlen : ys.length = (shape f.controls).length := by
        rw [applyOpS_length _ _ _ _ ha]
        simp [vals, shape]
      rw [applyOps_eq os { f with controls := rebuild (shape f.controls) ys }]
      dsimp only
      rw [shape_rebuild _ _ hlen, vals_rebuild _ _ hlen]
      cases applyOpsS (shape f.controls) ys os <;> simp [Except.map]

theorem applyOps_absorb (f f2 : Form) (ops : List Op)
    (h : applyOps f ops = .ok f2) : applyOps f2 ops = .ok f2 := by
  rw [applyOps_eq] at h
  cases ha : applyOpsS (shape f.controls) (vals f.controls) ops with
  | error e => rw [ha] at h; simp [Except.map] at h
  | ok ys =>
    rw [ha] at h
    simp only [Except.map] at h
    have hf2 : f2 = { f with controls := rebuild (shape f.controls) ys } := by
      cases h
      rfl
    have hlen : ys.length = (shape f.controls).length := by
      rw [applyOpsS_length ops _ _ _ ha]
      simp [vals, shape]
    subst hf2
    rw [applyOps_eq]
    dsimp only
    rw [shape_rebuild _ _ hlen, vals_rebuild _ _ hlen]
    rw [applyOpsS_absorb ops (shape f.controls) (vals f.controls) ys (by simp [vals, shape]) ha]
    simp [Except.map]

/-! ### Lemmas: field scan, discovery flags, submit pairs -/

theorem option_map_or {α β : Type} (a b : Option α) (f : α → β) :
    (a.or b).map f = (a.map f).or (b.map f) := by
  cases a <;> rfl

theorem lastFieldOfTypes_cons (types : List String) (fd : String × String)
    (rest : List (String × String)) :
    lastFieldOfTypes types (fd :: rest) =
      (lastFieldOfTypes types rest).or
        (if types.contains fd.2 then some fd.1 else none) := by
  unfold lastFieldOfTypes
  rw [List.reverse_cons, List.find?_append, option_map_or]
  by_cases h : fd.2 ∈ types <;> simp [List.find?_cons, h]

theorem password_not_username (x : String)
    (h : x ∈ PASSWORD_FIELD_TYPES) : x ∉ USERNAME_FIELD_TYPES := by
  have hx : x = "password" := by simpa [PASSWORD_FIELD_TYPES] using h
  subst hx
  decide

theorem scanFields_acc : ∀ (fields : List (String × String))
    (acc : Option String × Option String),
    scanFields fields acc =
      ((lastFieldOfTypes USERNAME_FIELD_TYPES fields).or acc.1,
       (lastFieldOfTypes PASSWORD_FIELD_TYPES fields).or acc.2)
  | [], acc => by simp [scanFields, lastFieldOfTypes]
  | fd :: rest, acc => by
    rw [scanFields, scanFields_acc rest, lastFieldOfTypes_cons, lastFieldOfTypes_cons]
    by_cases hu : fd.2 ∈ USERNAME_FIELD_TYPES
    · have hp : fd.2 ∉ PASSWORD_FIELD_TYPES := fun hp => password_not_username fd.2 hp hu
      simp [hu, hp, Option.or_assoc]
    · by_cases hp : fd.2 ∈ PASSWORD_FIELD_TYPES
      · simp [hu, hp, Option.or_assoc]
      · simp [hu, hp, Option.or_assoc]

theorem classifyStep_login (s : FormSpiderState) (f : String) :
    (classifyStep s f).found_login = (s.found_login || (f == "login")) := by
  cases hl : s.found_login <;>
    cases hr : s.found_registration <;>
      by_cases hf : f = "login" <;>
        by_cases hg : f = "registration" <;>
          simp_all [classifyStep]

theorem classifyStep_registration (s : FormSpiderState) (f : String) :
    (classifyStep s f).found_registration = (s.found_registration || (f == "registration")) := by
  cases hl : s.found_login <;>
    cases hr : s.found_registration <;>
      by_cases hf : f = "login" <;>
        by_cases hg : f = "registration" <;>
          simp_all [classifyStep]

theorem beq_strings_comm (a b : String) : (a == b) = (b == a) := by
  by_cases h : a = b
  · rw [h]
  · have h2 : ¬ b = a := fun hh => h hh.symm
    simp [h, h2]

theorem processForms_login : ∀ (forms : List String) (s : FormSpiderState),
    (processForms s forms).found_login = (s.found_login || forms.contains "login")
  | [], s => by simp [processForms]
  | f :: fs, s => by
    show (processForms (classifyStep s f) fs).found_login = _
    rw [processForms_login fs, classifyStep_login, List.contains_cons,
      beq_strings_comm "login" f, Bool.or_assoc]

theorem processForms_registration : ∀ (forms : List String) (s : FormSpiderState),
    (processForms s forms).found_registration = (s.found_registration || forms.contains "registration")
  | [], s => by simp [processForms]
  | f :: fs, s => by
    show (processForms (classifyStep s f) fs).found_registration = _
    rw [processForms_registration fs, classifyStep_registration, List.contains_cons,
      beq_strings_comm "registration" f, Bool.or_assoc]

theorem submitPairs_forall2 : ∀ (l : List (String × String)) (f : Form)
    (sp : List (String × String)), submitPairs f l = .ok sp →
    List.Forall₂ (fun fd p => fd.1 = p.1 ∧ getControl f.controls fd.1 = .ok p.2)
      (l.filter (fun fd => SUBMIT_TYPES.contains fd.2)) sp
  | [], f, sp, h => by
    simp [submitPairs] at h
    subst h
    exact List.Forall₂.nil
  | fd :: rest, f, sp, h => by
    by_cases hs : SUBMIT_TYPES.contains fd.2
    · simp only [submitPairs, if_pos hs] at h
      cases hg : getControl f.controls fd.1 with
      | error e => rw [hg] at h; simp at h
      | ok v =>
        rw [hg] at h
        cases hr : submitPairs f rest with
        | error e => rw [hr] at h; simp at h
        | ok sp2 =>
          rw [hr] at h
          simp at h
          rw [← h, List.filter_cons, if_pos (by simpa using hs)]
          exact List.Forall₂.cons ⟨rfl, hg⟩ (submitPairs_forall2 rest f sp2 hr)
    · simp only [submitPairs, if_neg hs] at h
      rw [List.filter_cons, if_neg (by simpa using hs)]
      exact submitPairs_forall2 rest f sp h

/-! ### Claim theorems -/

/-- Claim C1: for all cookie sets A and B compared under the identity
tuple, `parse_login` (the verifier) yields success iff B is not a subset
of A; verifying A against itself always fails with `badauth`; both sets
empty fails, and an empty initial set with a non-empty final set
succeeds. -/
theorem c1_verify_success_iff_not_subset :
    ∀ (A B : List CookieRec) (u : String),
      ((parse_login A (some B) u).isOk = true ↔ ¬ (cookieTuples B ⊆ cookieTuples A))
      ∧ parse_login A (some A) u = .failure "badauth"
      ∧ parse_login [] (some []) u = .failure "badauth"
      ∧ (∀ (c : CookieRec) (cs : List CookieRec),
          (parse_login [] (some (c :: cs)) u).isOk = true) := by
  intro A B u
  have hcond : ∀ (X Y : List CookieRec),
      ((cookieTuples Y).all (fun t => decide (t ∈ cookieTuples X)) = true)
        ↔ cookieTuples Y ⊆ cookieTuples X := by
    intro X Y
    simp [List.all_eq_true, List.subset_def]
  refine ⟨?_, ?_, ?_, ?_⟩
  · by_cases h : (cookieTuples B).all (fun t => decide (t ∈ cookieTuples A)) = true
    · simp only [parse_login, cookie_dicts, Option.getD_some, if_pos h, LoginResult.isOk]
      simp only [Bool.false_eq_true, false_iff, not_not]
      exact (hcond A B).mp h
    · simp only [parse_login, cookie_dicts, Option.getD_some, if_neg h, LoginResult.isOk]
      simp only [true_iff]
      exact fun hsub => h ((hcond A B).mpr hsub)
  · have h : (cookieTuples A).all (fun t => decide (t ∈ cookieTuples A)) = true := by
      simp [List.all_eq_true]
    simp [parse_login, cookie_dicts, h]
  · simp [parse_login, cookie_dicts, cookieTuples]
  · intro c cs
    simp [parse_login, cookie_dicts, cookieTuples, LoginResult.isOk]

/-- Claim C4: the cookie identity used for set comparison is exactly the
5-tuple (name, value, domain, path, port); two records differing only in
value have distinct tuples; the other carried attributes (secure,
expires) do not change the tuple, hence not the verdict; and the verdict
depends on the cookie lists only through their tuples. -/
theorem c4_cookie_identity :
    (∀ c : CookieRec, cookieTuple c = (c.name, c.value, c.domain, c.path, c.port))
    ∧ (∀ c c2 : CookieRec, c.name = c2.name → c.domain = c2.domain → c.path = c2.path →
        c.port = c2.port → c.value ≠ c2.value → cookieTuple c ≠ cookieTuple c2)
    ∧ (∀ (c : CookieRec) (s : Bool) (e : Option Nat),
        cookieTuple { c with secure := s, expires := e } = cookieTuple c)
    ∧ (∀ (A A2 B B2 : List CookieRec) (u u2 : String),
        cookieTuples A = cookieTuples A2 → cookieTuples B = cookieTuples B2 →
        (parse_login A (some B) u).isOk = (parse_login A2 (some B2) u2).isOk) := by
  refine ⟨fun c => rfl, ?_, fun c s e => rfl, ?_⟩
  · intro c c2 h1 h2 h3 h4 hv heq
    exact hv (congrArg (fun t => t.2.1) heq)
  · intro A A2 B B2 u u2 hA hB
    simp only [parse_login, cookie_dicts, Option.getD_some]
    rw [hA, hB]
    by_cases h : (cookieTuples B2).all (fun t => decide (t ∈ cookieTuples A2)) = true
    · simp [if_pos h, LoginResult.isOk]
    · simp [if_neg h, LoginResult.isOk]

/-- Claim C4 witness: two concrete cookies differing only in value have
distinct identity tuples, and the verdict is insensitive to the
non-tuple attributes at a concrete input. -/
theorem c4_cookie_identity_witness :
    cookieTuple cw1 ≠ cookieTuple cw2
    ∧ (parse_login [cw1] (some [cw1]) "u").isOk = (parse_login [cw1] (some [cw1]) "v").isOk :=
  ⟨c4_cookie_identity.2.1 cw1 cw2 rfl rfl rfl rfl (by decide),
   c4_cookie_identity.2.2.2 [cw1] [cw1] [cw1] [cw1] "u" "v" rfl rfl⟩

/-- Claim C10: a missing cookie jar on the initial fetch gives `None`
from `cookie_dicts`, which `or []` turns into the empty initial cookie
set, so any cookie on the submission response yields the success
verdict. -/
theorem c10_missing_jar_empty_initial :
    cookie_dicts none = none
    ∧ initialCookies none = []
    ∧ (∀ (c : CookieRec) (cs : List CookieRec) (u : String),
        parse_login (initialCookies none) (some (c :: cs)) u = .success (c :: cs) u) := by
  refine ⟨rfl, rfl, ?_⟩
  intro c cs u
  simp [parse_login, initialCookies, cookie_dicts, cookieTuples]

/-- Claim C2 counterexample: on a form with two username-typed and two
password-typed fields, the scan keeps `user2`/`pass2`, not the first
fields `user1`/`pass1` the claim requires, and `login_params` overwrites
the *last* fields with the credentials. -/
theorem c2_counterexample_last_not_first :
    firstFieldOfTypes USERNAME_FIELD_TYPES c2Fields = some "user1"
    ∧ firstFieldOfTypes PASSWORD_FIELD_TYPES c2Fields = some "pass1"
    ∧ scanFields c2Fields (none, none) = (some "user2", some "pass2")
    ∧ scanFields c2Fields (none, none) ≠
        (firstFieldOfTypes USERNAME_FIELD_TYPES c2Fields,
         firstFieldOfTypes PASSWORD_FIELD_TYPES c2Fields)
    ∧ login_params none "bob" "pw" c2Form c2Fields = .ok
        ({ action := "/l", method := "GET",
           controls := [{ name := "user1", value := "a", allowed := none, isSubmitControl := false },
                        { name := "user2", value := "bob", allowed := none, isSubmitControl := false },
                        { name := "pass1", value := "c", allowed := none, isSubmitControl := false },
                        { name := "pass2", value := "pw", allowed := none, isSubmitControl := false }] },
         some { url := "/l", method := "GET", headers := [],
                body := "user1=a&user2=bob&pass1=c&pass2=pw" }) :=
  ⟨rfl, rfl, rfl, by decide, rfl⟩

/-- Claim C2 (amended): the scan loop of `login_params` selects the
*last* field whose type is username-like and the *last* field typed
password; with several fields of a kind, the latest in declaration order
is the one overwritten with the credential value. -/
theorem c2_amended_last_field_selected :
    ∀ fields : List (String × String),
      scanFields fields (none, none) =
        (lastFieldOfTypes USERNAME_FIELD_TYPES fields,
         lastFieldOfTypes PASSWORD_FIELD_TYPES fields) := by
  intro fields
  rw [scanFields_acc]
  simp [Option.or_none]

/-- Claim C7 counterexample: a link whose URL carries a keyword only in
its *query string* is prioritised 100 by the code, while the claim's
text (link text plus path component only) contains no keyword, so the
claim says 0. -/
theorem c7_counterexample_query_counts :
    link_priority "http://example.com/p?next=login" "more info" = 100
    ∧ claim_priority "http://example.com/p?next=login" "more info" = 0 :=
  ⟨by decide, by decide⟩

/-- Claim C7 (amended): the priority is 100 exactly when the link text
joined (with a space) to the *relative part of the link's URL* — its
path, query and fragment components, not the path alone — contains one
of the fixed keyword patterns case-insensitively, else 0; a
"Sign Up Now" link gets 100 and an "About Us" link gets 0. -/
theorem c7_amended_priority_uses_relative_url :
    ∀ url text : String,
      (link_priority url text = 100 ∨ link_priority url text = 0)
      ∧ (link_priority url text = 100 ↔
          ∃ p ∈ priority_patterns, strContains (link_text url text) p = true)
      ∧ link_priority "http://example.com/page2" "Sign Up Now" = 100
      ∧ link_priority "http://example.com/about-us" "About Us" = 0 := by
  intro url text
  refine ⟨?_, ?_, by decide, by decide⟩
  · by_cases h : priority_patterns.any (fun p => strContains (link_text url text) p) = true
    · exact .inl (by simp [link_priority, h])
    · exact .inr (by simp [link_priority, h])
  · by_cases h : priority_patterns.any (fun p => strContains (link_text url text) p) = true
    · constructor
      · intro _
        exact List.any_eq_true.mp h
      · intro _
        simp [link_priority, h]
    · simp only [link_priority, if_neg h]
      constructor
      · intro h100
        exact absurd h100 (by decide)
      · intro hex
        exact absurd (List.any_eq_true.mpr hex) h

/-- Claim C8: the discovery flags start false, flip monotonically from
false to true exactly when a matching form type appears, never regress,
and the spider closes (dispatching no further links) exactly when both
flags hold after processing the page's forms. -/
theorem c8_flags_monotone_done :
    ∀ (s : FormSpiderState) (forms : List String) (links : List (String × String))
      (s2 : FormSpiderState) (closed : Bool) (reqs : List (String × Nat)),
      FormSpider_parse s forms links = (s2, closed, reqs) →
      initial_state.found_login = false
      ∧ initial_state.found_registration = false
      ∧ s2.found_login = (s.found_login || forms.contains "login")
      ∧ s2.found_registration = (s.found_registration || forms.contains "registration")
      ∧ (s.found_login = true → s2.found_login = true)
      ∧ (s.found_registration = true → s2.found_registration = true)
      ∧ closed = (s2.found_login && s2.found_registration)
      ∧ (closed = true → reqs = []) := by
  intro s forms links s2 closed reqs h
  by_cases hc : ((processForms s forms).found_registration
      && (processForms s forms).found_login) = true
  · simp only [FormSpider_parse, if_pos hc] at h
    injection h with h1 h23
    injection h23 with h2 h3
    subst h1
    subst h2
    subst h3
    rw [Bool.and_eq_true] at hc
    refine ⟨rfl, rfl, processForms_login forms s, processForms_registration forms s,
      ?_, ?_, ?_, fun _ => rfl⟩
    · intro hh
      rw [processForms_login]
      simp [hh]
    · intro hh
      rw [processForms_registration]
      simp [hh]
    · simp [hc.1, hc.2]
  · simp only [FormSpider_parse, if_neg hc] at h
    injection h with h1 h23
    injection h23 with h2 h3
    subst h1
    subst h2
    subst h3
    refine ⟨rfl, rfl, processForms_login forms s, processForms_registration forms s,
      ?_, ?_, ?_, ?_⟩
    · intro hh
      rw [processForms_login]
      simp [hh]
    · intro hh
      rw [processForms_registration]
      simp [hh]
    · have hf : ((processForms s forms).found_registration
          && (processForms s forms).found_login) = false := by
        simpa using hc
      rw [Bool.and_comm] at hf
      exact hf.symm
    · intro hfalse
      exact absurd hfalse (by decide)

/-- Claim C8 witness: a page carrying both form types flips both flags
and closes the spider after one call, with no links dispatched. -/
theorem c8_flags_witness :
    FormSpider_parse initial_state ["login", "registration"] [("http://x/a", "t")]
      = ({ found_login := true, found_registration := true }, true, [])
    ∧ ({ found_login := true, found_registration := true } : FormSpiderState).found_login
        = (initial_state.found_login || ["login", "registration"].contains "login") :=
  ⟨by rfl,
   (c8_flags_monotone_done initial_state ["login", "registration"] [("http://x/a", "t")]
      { found_login := true, found_registration := true } true [] (by rfl)).2.2.1⟩


theorem login_params_scan_none_user (url : Option String) (un pw : String) (form : Form)
    (fields : List (String × String)) (p : Option String)
    (hscan : scanFields fields (none, none) = (none, p)) :
    login_params url un pw form fields = .ok (form, none) := by
  unfold login_params
  rw [hscan]

theorem login_params_scan_none_pass (url : Option String) (un pw : String) (form : Form)
    (fields : List (String × String)) (uf : String)
    (hscan : scanFields fields (none, none) = (some uf, none)) :
    login_params url un pw form fields = .ok (form, none) := by
  unfold login_params
  rw [hscan]

theorem login_params_scan_some (url : Option String) (un pw : String) (form : Form)
    (fields : List (String × String)) (uf pf : String)
    (hscan : scanFields fields (none, none) = (some uf, some pf)) :
    login_params url un pw form fields = buildSubmission url un pw form fields uf pf := by
  unfold login_params
  rw [hscan]

/-- Claim C3: `login_params` is deterministic in its inputs and its
effect on the form is idempotent: the field-type classification is a
read-only input, and re-running it on the form state it produced, with
the same credentials, returns the very same form state and the
byte-identical submission dict. -/
theorem c3_login_params_pure :
    ∀ (url : Option String) (username password : String) (form : Form)
      (fields : List (String × String)) (f2 : Form) (r : Option SubmissionRequest),
      login_params url username password form fields = .ok (f2, r) →
      login_params url username password f2 fields = .ok (f2, r) := by
  intro url un pw form fields f2 r h
  cases hscan : scanFields fields (none, none) with
  | mk u p =>
    cases u with
    | none =>
      rw [login_params_scan_none_user url un pw form fields p hscan] at h
      simp at h
      obtain ⟨hf, hr⟩ := h
      subst hf
      subst hr
      exact login_params_scan_none_user url un pw form fields p hscan
    | some uf =>
      cases p with
      | none =>
        rw [login_params_scan_none_pass url un pw form fields uf hscan] at h
        simp at h
        obtain ⟨hf, hr⟩ := h
        subst hf
        subst hr
        exact login_params_scan_none_pass url un pw form fields uf hscan
      | some pf =>
        rw [login_params_scan_some url un pw form fields uf pf hscan] at h
        unfold buildSubmission at h
        cases happ : applyOps form
            (checkboxOps fields ++
              [{ name := uf, value := un, swallow := false },
               { name := pf, value := pw, swallow := false }]) with
        | error e => rw [happ] at h; simp at h
        | ok fm =>
          rw [happ] at h
          simp only [] at h
          unfold finishSubmission at h
          cases hsp : submitPairs fm fields with
          | error e => rw [hsp] at h; simp at h
          | ok sp =>
            rw [hsp] at h
            simp at h
            obtain ⟨hf, hr⟩ := h
            subst hf
            subst hr
            rw [login_params_scan_some url un pw fm fields uf pf hscan]
            unfold buildSubmission
            rw [applyOps_absorb form fm _ happ]
            show finishSubmission url fields fm = _
            unfold finishSubmission
            rw [hsp]

/-- Claim C3 witness: re-running `login_params` on the form state it
produced returns the same state and the same submission dict. -/
theorem c3_login_params_pure_witness :
    login_params none "alice" "secret" c3F2 c3Fields = .ok (c3F2, some c3Req) :=
  c3_login_params_pure none "alice" "secret" c3Form c3Fields c3F2 (some c3Req) (by rfl)

/-- Claim C5 (code bug): on the Scenario B form (username-typed field,
no password field) `login_params` does return `None`, but
`LoginSpider.parse` never checks `params` for `None` and subscripts
`params['url']`, raising `TypeError` instead of returning the
`nologinform` item that the form-absent case produces. -/
theorem c5_missing_password_raises :
    login_params (some "http://site.example/") "user" "pw" c5Form c5Fields = .ok (c5Form, none)
    ∧ LoginSpider_parse [c5Ef] "user" "pw" (some "http://site.example/") none = .raised .typeError
    ∧ ParseOutcome.raised PyError.typeError ≠ ParseOutcome.item (LoginResult.failure "nologinform")
    ∧ LoginSpider_parse [] "user" "pw" (some "http://site.example/") none
        = .item (.failure "nologinform") :=
  ⟨rfl, rfl, by decide, rfl⟩

/-- Claim C6: a successful submission collects the non-submit field
values as pairs in declaration order, appends one explicit pair per
submit-typed field with its current value, carries the
`Content-Type: application/x-www-form-urlencoded` header exactly when
the form method is POST (else no headers), and url-encodes the collected
pairs into the body. -/
theorem c6_submission_shape :
    ∀ (url : Option String) (username password : String) (form : Form)
      (fields : List (String × String)) (f2 : Form) (req : SubmissionRequest),
      login_params url username password form fields = .ok (f2, some req) →
      req.method = f2.method
      ∧ req.headers = (if f2.method = "POST" then DEFAULT_POST_HEADERS else [])
      ∧ f2.form_values
          = (f2.controls.filter (fun c => !c.isSubmitControl)).map (fun c => (c.name, c.value))
      ∧ (∃ sp, submitPairs f2 fields = .ok sp
          ∧ req.body = urlencode (f2.form_values ++ sp)
          ∧ List.Forall₂ (fun fd p => fd.1 = p.1 ∧ getControl f2.controls fd.1 = .ok p.2)
              (fields.filter (fun fd => SUBMIT_TYPES.contains fd.2)) sp) := by
  intro url un pw form fields f2 req h
  cases hscan : scanFields fields (none, none) with
  | mk u p =>
    cases u with
    | none =>
      rw [login_params_scan_none_user url un pw form fields p hscan] at h
      simp at h
    | some uf =>
      cases p with
      | none =>
        rw [login_params_scan_none_pass url un pw form fields uf hscan] at h
        simp at h
      | some pf =>
        rw [login_params_scan_some url un pw form fields uf pf hscan] at h
        unfold buildSubmission at h
        cases happ : applyOps form
            (checkboxOps fields ++
              [{ name := uf, value := un, swallow := false },
               { name := pf, value := pw, swallow := false }]) with
        | error e => rw [happ] at h; simp at h
        | ok fm =>
          rw [happ] at h
          simp only [] at h
          unfold finishSubmission at h
          cases hsp : submitPairs fm fields with
          | error e => rw [hsp] at h; simp at h
          | ok sp =>
            rw [hsp] at h
            simp at h
            obtain ⟨hf, hr⟩ := h
            subst hf
            subst hr
            exact ⟨rfl, rfl, rfl, sp, hsp, rfl, submitPairs_forall2 fields fm sp hsp⟩

/-- Claim C6 witness: the concrete POST form with a submit button yields
the expected headers, body and submit pair. -/
theorem c6_submission_shape_witness :
    c6wReq.method = c6wF2.method
    ∧ c6wReq.headers = (if c6wF2.method = "POST" then DEFAULT_POST_HEADERS else [])
    ∧ c6wF2.form_values
        = (c6wF2.controls.filter (fun c => !c.isSubmitControl)).map (fun c => (c.name, c.value))
    ∧ (∃ sp, submitPairs c6wF2 c6wFields = .ok sp
        ∧ c6wReq.body = urlencode (c6wF2.form_values ++ sp)
        ∧ List.Forall₂ (fun fd p => fd.1 = p.1 ∧ getControl c6wF2.controls fd.1 = .ok p.2)
            (c6wFields.filter (fun fd => SUBMIT_TYPES.contains fd.2)) sp) :=
  c6_submission_shape (some "http://x.com/a/b") "bob" "pw" c6wForm c6wFields c6wF2 c6wReq (by rfl)

/-- Claim C9: a `ValueError` from a field assignment is swallowed exactly
when the op is the checkbox step (the credential assignments propagate
it); the checkbox ops carry the swallow flag; concretely, a rejecting
checkbox still yields a submission with the checkbox value untouched,
while a rejecting username field aborts `login_params` with the error. -/
theorem c9_checkbox_best_effort :
    (∀ (f : Form) (n v : String),
      setControls f.controls n v = .error .valueError →
      applyOp f { name := n, value := v, swallow := true } = .ok f
      ∧ applyOp f { name := n, value := v, swallow := false } = .error .valueError)
    ∧ checkboxOps [("rem", "remember me checkbox")]
        = [{ name := "rem", value := "on", swallow := true }]
    ∧ login_params none "u" "p" c9FormA c9FieldsA = .ok (c9F2A, some c9ReqA)
    ∧ login_params none "u" "p" c9FormB c9FieldsB = .error .valueError := by
  refine ⟨?_, rfl, rfl, rfl⟩
  intro f n v h
  constructor <;> simp [applyOp, h]

/-- Claim C9 witness: on a concrete control rejecting the value, the
swallowing op is a no-op and the non-swallowing op raises. -/
theorem c9_checkbox_best_effort_witness :
    applyOp { action := "/a", method := "GET",
              controls := [{ name := "x", value := "", allowed := some ["a"],
                             isSubmitControl := false }] }
        { name := "x", value := "on", swallow := true }
      = .ok { action := "/a", method := "GET",
              controls := [{ name := "x", value := "", allowed := some ["a"],
                             isSubmitControl := false }] }
    ∧ applyOp { action := "/a", method := "GET",
                controls := [{ name := "x", value := "", allowed := some ["a"],
                               isSubmitControl := false }] }
        { name := "x", value := "on", swallow := false }
      = .error .valueError :=
  c9_checkbox_best_effort.1
    { action := "/a", method := "GET",
      controls := [{ name := "x", value := "", allowed := some ["a"],
                     isSubmitControl := false }] }
    "x" "on" (by rfl)
